import Mathlib

/-!
Verification development for the `skinvis` repository (tactile skin sensor
visualization and calibration tools).

The Python sources are shallowly embedded: floating point values are modelled
as rationals (`ℚ`), numpy arrays as lists or index functions, and mutation as
explicit state passing.  The native `skin` sensor core is not part of the
repository sources; its facade is modelled from the specification and marked
as such.  Where numpy produces NaN (division `0/0`), the embedding uses
`Option`, with `none` standing for a NaN-contaminated result.
-/

namespace Skinvis

/-- numpy `.min()` on a nonempty array (0 on empty, which numpy rejects). -/
def listMin : List ℚ → ℚ
  | [] => 0
  | h :: t => t.foldl min h

/-- numpy `.max()` on a nonempty array (0 on empty, which numpy rejects). -/
def listMax : List ℚ → ℚ
  | [] => 0
  | h :: t => t.foldl max h

/-- Python `int(x)` on a float: truncation toward zero
(`Int.tdiv`, not floor division — `int(-3.5)` is `-3`). -/
def pyInt (q : ℚ) : ℤ := q.num.tdiv q.den

/-- Value of a decimal digit character. -/
def charDigit (c : Char) : ℕ := c.toNat - '0'.toNat

/-- Decimal digits, most significant first, to a natural number. -/
def digitsToNat (ds : List Char) : ℕ := ds.foldl (fun a c => 10 * a + charDigit c) 0

/-- Split off the maximal leading run of decimal digits
(the `\d*` greedy scan both parsers below use). -/
def takeDigits : List Char → List Char × List Char
  | [] => ([], [])
  | c :: cs =>
    if c.isDigit then
      let (d, r) := takeDigits cs
      (c :: d, r)
    else ([], c :: cs)

/-- Python `float(s)` on decimal literals, as an exact rational: optional
surrounding whitespace, optional sign, digits with optional fractional part
(at least one digit overall), optional `e`/`E` exponent.  Special values
(`inf`, `nan`) and digit-group underscores are not representable here and
yield `none`; the claims settled against this parser depend only on the
parse succeeding or failing. -/
def pyFloat (s : String) : Option ℚ :=
  let cs := s.toList.dropWhile (·.isWhitespace)
  let cs := (cs.reverse.dropWhile (·.isWhitespace)).reverse
  let (sign, cs) : ℚ × List Char := match cs with
    | '+' :: t => ((1 : ℚ), t)
    | '-' :: t => ((-1 : ℚ), t)
    | t => ((1 : ℚ), t)
  let (ip, cs) := takeDigits cs
  let (fp, cs) : List Char × List Char := match cs with
    | '.' :: t => takeDigits t
    | t => ([], t)
  if ip.isEmpty && fp.isEmpty then none
  else
    let mant : ℚ := sign * (digitsToNat ip + (digitsToNat fp : ℚ) / 10 ^ fp.length)
    match cs with
    | [] => some mant
    | e :: t =>
      if e = 'e' ∨ e = 'E' then
        let (eneg, t) : Bool × List Char := match t with
          | '+' :: t' => (false, t')
          | '-' :: t' => (true, t')
          | t' => (false, t')
        let (ed, t) := takeDigits t
        if ed.isEmpty || !t.isEmpty then none
        else
          let ex := digitsToNat ed
          some (if eneg then mant / 10 ^ ex else mant * 10 ^ ex)
      else none

/-!
## tune.py — `CellLine` (scrolling plot ring buffer) and `ParamEditor`
-/

/-- The part of `tune.ParamEditor` that a `CellLine.add` can reach through
`self.editor.update(value)`: the max-tracking ("mx") mode state. -/
structure MxEditor where
  mxMode : Bool
  mxMax : ℚ
  deriving Repr, DecidableEq

/-- Embeds `tune.ParamEditor.update`: record the running maximum while in mx mode. -/
def MxEditor.update (ed : MxEditor) (value : ℚ) : MxEditor :=
  if ed.mxMode ∧ value > ed.mxMax then { ed with mxMax := value } else ed

/-- State of a `tune.CellLine`: the backing numpy array `values`, the write
cursor `pos`, the display mode and bound labels, and the data handed to
`line.set_data` (`ydata`).  The text labels are tracked by the value passed
to `self.fmt` (the `'%.0f'` string rendering itself is display-only). -/
structure CellLine where
  values : List ℚ
  pos : ℕ
  automode : Bool
  target : ℚ
  upperValue : ℚ
  lowerValue : ℚ
  upperText : ℚ
  lowerText : ℚ
  ylim : ℚ × ℚ
  ydata : List ℚ
  editor : Option MxEditor
  deriving Repr

/-- Embeds `tune.CellLine.__init__`: `values = np.full(cmdline.history, initial_value)`,
`pos = 0`, auto mode, no editor installed; the initial plot shows `values`
as-is.  (`(0, 1)` is the matplotlib default axis limit; `__init__` does not
set `ylim`.) -/
def CellLine.init (history : ℕ) (initialValue target : ℚ) : CellLine :=
  { values := List.replicate history initialValue
    pos := 0
    automode := true
    target := target
    upperValue := initialValue
    lowerValue := initialValue
    upperText := initialValue
    lowerText := initialValue
    ylim := (0, 1)
    ydata := List.replicate history initialValue
    editor := none }

/-- Embeds `tune.CellLine.update_minmax`. -/
def CellLine.update_minmax (cl : CellLine) : CellLine :=
  if cl.automode then
    let vmin := listMin cl.values
    let vmax := listMax cl.values
    let cl := if vmax ≠ cl.upperValue then { cl with upperValue := vmax, upperText := vmax } else cl
    let cl := if vmin ≠ cl.lowerValue then { cl with lowerValue := vmin, lowerText := vmin } else cl
    { cl with ylim := (vmin, vmax) }
  else cl

/-- Embeds `np.hstack([self.values[self.pos:], self.values[:self.pos]])`. -/
def CellLine.rotated (cl : CellLine) : List ℚ :=
  cl.values.drop cl.pos ++ cl.values.take cl.pos

/-- The `n` most recent entries of a stream, oldest first (used to state
what the ring buffer shows). -/
def lastN (n : ℕ) (l : List ℚ) : List ℚ := l.drop (l.length - n)

/-- Embeds `np.clip(y, 0, target)` on one element. -/
def pyClip (lo hi y : ℚ) : ℚ := min (max y lo) hi

/-- Embeds `tune.CellLine.add` (`if self.editor:` is `Option.map` on the installed
editor). -/
def CellLine.add (cl : CellLine) (value : ℚ) : CellLine :=
  let values := cl.values.set cl.pos value
  let pos := (cl.pos + 1) % values.length
  let cl1 : CellLine := { cl with values := values, pos := pos }
  let cl2 := cl1.update_minmax
  let ydata := cl2.rotated
  let ydata := if cl2.automode then ydata else ydata.map (pyClip 0 cl2.target)
  { cl2 with ydata := ydata, editor := cl2.editor.map (fun ed => ed.update value) }

/-!
## The `skin` facade

The native sensor core is not among the repository sources; only its callers
are.  Its accessor surface is therefore modelled from the specification.
-/

/-- Modelled from the spec: the `skin.Skin` sensor facade (the native sensor
core, absent from the repository sources).  Snapshot accessors per spec §4.7:
`get_expavg`, `get_history`, `get_state`, `get_patch_state`,
`get_patch_mean`, `get_patch_pressure`, `get_expavg_all`, `get_c1`,
`get_target_pressure`; plus the per-cell gain `c1` that `set_c1` updates. -/
structure Skin where
  patches : ℕ
  cells : ℕ
  expavg : ℕ → ℕ → ℚ
  historyData : ℕ → ℕ → List ℚ
  stateData : List (List ℚ)
  patchState : ℕ → List ℚ
  patchMean : ℕ → ℚ
  patchPressure : ℕ → ℚ × ℚ × ℚ
  expavgAll : ℕ → List ℚ
  c1 : ℕ → ℕ → ℚ
  targetPressure : ℚ

/-- Modelled from the spec: `Skin.set_c1(patch, cell, v)` replaces the gain
of one cell and keeps every other entry. -/
def Skin.set_c1 (s : Skin) (patch cell : ℕ) (v : ℚ) : Skin :=
  { s with c1 := fun p c => if p = patch ∧ c = cell then v else s.c1 p c }

/-- Modelled from the spec: `Skin.get_c1(patch, cell)`. -/
def Skin.get_c1 (s : Skin) (patch cell : ℕ) : ℚ := s.c1 patch cell

/-- Result of one `tune.ParamEditor.set_c1` submission: the sensor state
afterwards, the trace of `sensor.set_c1` calls made (arguments), and the
value handed to `textbox.set_val` at the end. -/
structure SetC1Result where
  sensor : Skin
  calls : List (ℕ × ℕ × ℚ)
  textbox : ℚ

/-- Embeds `tune.ParamEditor.set_c1(value_str)`: parse the string with `float`;
on success call `sensor.set_c1(cmdline.patch, self.cell, value)`, on
`ValueError` only print; in both cases finish with
`textbox.set_val(sensor.get_c1(cmdline.patch, self.cell))`. -/
def ParamEditor.set_c1 (sensor : Skin) (patch cell : ℕ) (value_str : String) : SetC1Result :=
  match pyFloat value_str with
  | some value =>
    let sensor' := sensor.set_c1 patch cell value
    { sensor := sensor', calls := [(patch, cell, value)],
      textbox := sensor'.get_c1 patch cell }
  | none =>
    { sensor := sensor, calls := [], textbox := sensor.get_c1 patch cell }

/-!
## skinvis.py — cell placement and the `circle` style update
-/

/-- The raw placement table of skinvis.py (cell numbers 1..16 by board
position, before the `- 1` shift). -/
def placementOriginal : List (List ℕ) :=
  [[1, 2, 10, 9], [3, 4, 12, 11], [6, 5, 13, 14], [8, 7, 15, 16]]

/-- Embeds `np.rot90`: rotate a matrix 90° counterclockwise,
`rot90(m)[i][j] = m[j][n-1-i]`. -/
def rot90 (m : List (List ℕ)) : List (List ℕ) := m.transpose.reverse

/-- Embeds `placement = np.rot90(np.array([...]) - 1)` (skinvis.py line 41). -/
def placement : List (List ℕ) := rot90 (placementOriginal.map (List.map (· - 1)))

/-- Embeds `pos_to_cell`: `placement.ravel()` indexed by board position. -/
def posToCell : List ℕ := placement.flatten

/-- Embeds `cell_to_pos`: inverse of `pos_to_cell`. -/
def cellToPos (cell : ℕ) : ℕ := posToCell.indexOf cell

/-- Cell positions laid down by `circle_init`: for board position `p` with
`row = p / 4`, `col = p % 4` (iteration order of `product(range(4), range(4))`),
the cell `pos_to_cell[p]` sits at `(-width/2 + col, height/2 - row)` with
`width = height = 3`. -/
def circlePosList : List (ℕ × (ℚ × ℚ)) :=
  (List.range 16).map (fun p =>
    (posToCell.getD p 0, (-(3 : ℚ)/2 + (p % 4 : ℕ), (3 : ℚ)/2 - (p / 4 : ℕ))))

/-- Embeds `circle_pos[cell]`. -/
def circlePos (cell : ℕ) : ℚ × ℚ := (circlePosList.lookup cell).getD (0, 0)

/-- Embeds `circle_init` line 471: a cell is enabled when the profile gives it a
nonzero `c1`; with no profile on the command line every cell is enabled. -/
def circleEnabled (profile : Option (ℕ → ℕ → ℚ)) (patch cell : ℕ) : Bool :=
  match profile with
  | some prof => decide (prof patch cell ≠ 0)
  | none => true

/-- Embeds `mpl.colors.Normalize(vmin, vmax, clip=True)` applied by
`mapper.to_rgba`: the color coordinate of a value. -/
def colorNorm (vmin vmax v : ℚ) : ℚ := pyClip 0 1 ((v - vmin) / (vmax - vmin))

/-- The colors written by the `circle_update` loop (lines 515-518): for every
cell — enabled or not — `avg = abs(get_expavg(patch, cell))` is read and the
circle is recolored by `mapper.to_rgba(avg)`. -/
def circleColors (expavg : ℕ → ℚ) (vmin vmax : ℚ) (cells : ℕ) : List ℚ :=
  (List.range cells).map (fun cell => colorNorm vmin vmax |expavg cell|)

/-- The `circle_value` array after the `circle_update` loop:
`circle_value[cell] = min(abs(get_expavg(patch, cell)), circle_max[cell])`
where `circle_max` is filled with `cmdline.zmax`. -/
def circleValues (expavg : ℕ → ℚ) (zmax : ℚ) (cells : ℕ) : List ℚ :=
  (List.range 16).map (fun cell =>
    if cell < cells then min |expavg cell| zmax else 0)

/-- The weight one cell actually contributes in `circle_update`:
`min(abs(avg), zmax) / zmax` — the clipped absolute value, normalized by
`circle_max`. -/
def clipWeight (expavg : ℕ → ℚ) (zmax : ℚ) (c : ℕ) : ℚ :=
  min |expavg c| zmax / zmax

/-- Embeds `focus_alpha = 0.5` (skinvis.py line 505). -/
def focus_alpha : ℚ := 1/2

/-- Embeds `FOCUS_RADIUS = 0.5`. -/
def FOCUS_RADIUS : ℚ := 1/2

/-- Embeds `FOCUS_RADIUS_MIN = 0.01`. -/
def FOCUS_RADIUS_MIN : ℚ := 1/100

/-- The aggregation part of one `circle_update` call (lines 515-546).
`none` stands for a NaN-contaminated float or array. -/
structure CircleFrame where
  /-- `circle_value` after the per-cell loop. -/
  values : List ℚ
  /-- `focus_magnitude` as first computed on line 541 (before smoothing);
  `none` = NaN (the sum of NaN weights when `zmax == 0`). -/
  focusMagnitudeRaw : Option ℚ
  /-- `field = (circle_value/circle_max)[circle_active]/focus_magnitude`
  (line 542); `none` models the all-NaN numpy array arising from `0/0`. -/
  field : Option (List ℚ)
  /-- the smoothed `focus_pos` (line 544); `none` models NaN propagated
  from a NaN `field`. -/
  focusPos : Option (ℚ × ℚ)
  /-- the smoothed `focus_magnitude` (line 546); `none` = NaN. -/
  focusMagnitude : Option ℚ
  deriving Repr

/-- The cell indices selected by the boolean mask `circle_active` (numpy
boolean indexing keeps ascending index order). -/
def activeIdx (active : ℕ → Bool) : List ℕ := (List.range 16).filter active

/-- Embeds `(circle_value/circle_max)[circle_active]` (line 541): the elementwise
quotient of the two 16-element arrays, masked to the active cells. -/
def circleWeights (expavg : ℕ → ℚ) (active : ℕ → Bool) (zmax : ℚ) (cells : ℕ) :
    List ℚ :=
  (activeIdx active).map (fun c => (circleValues expavg zmax cells).getD c 0 / zmax)

/-- Embeds `focus_magnitude = ((circle_value/circle_max)[circle_active]).sum()`
(line 541). -/
def circleMagnitudeRaw (expavg : ℕ → ℚ) (active : ℕ → Bool) (zmax : ℚ)
    (cells : ℕ) : ℚ :=
  (circleWeights expavg active zmax cells).sum

/-- Embeds `circle_update` lines 515-546, for one patch: per-cell value clipping,
then `focus_magnitude = ((circle_value/circle_max)[circle_active]).sum()`,
`field = (circle_value/circle_max)[circle_active]/focus_magnitude`,
`focus_pos = field.dot(circle_pos[circle_active])`, and exponential smoothing
of both against `last_pos`/`last_magnitude`.  The straight-line numpy code
falls into four regimes, modelled branch by branch:
* empty active mask: the masked arrays are empty, the sum of an empty array
  is `0.0`, the empty `field` has no entries to divide (no NaN), and the
  `(0,)·(0,2)` dot product is `[0, 0]`, so the smoothed position is the
  finite `focus_alpha*0 + (1-focus_alpha)*last_pos`;
* `zmax == 0` with a nonempty mask: every clipped value is
  `min(abs(avg), 0) = 0` and `0/0` makes every weight NaN, so magnitude,
  field, position and smoothed magnitude are all NaN;
* nonempty mask, `zmax ≠ 0`, zero magnitude: every weight is zero (for
  `zmax > 0` the weights are nonnegative; for `zmax < 0` each weight is `1`
  and this branch is unreachable), so `field = 0/0` is NaN elementwise and
  the centroid is NaN, while the magnitude itself stays the finite `0`;
* otherwise everything is finite.
There is no `M > 0` guard anywhere in the source.  (The final
`focus_pos *= 2*np.sqrt(2)` display rescaling of the drawn artist is outside
this aggregation.) -/
def circleUpdateCore (expavg : ℕ → ℚ) (active : ℕ → Bool) (zmax : ℚ)
    (lastPos : ℚ × ℚ) (lastMag : ℚ) (cells : ℕ) : CircleFrame :=
  let M := circleMagnitudeRaw expavg active zmax cells
  if activeIdx active = [] then
    { values := circleValues expavg zmax cells
      focusMagnitudeRaw := some M
      field := some []
      focusPos := some
        (focus_alpha * 0 + (1 - focus_alpha) * lastPos.1,
         focus_alpha * 0 + (1 - focus_alpha) * lastPos.2)
      focusMagnitude := some (focus_alpha * M + (1 - focus_alpha) * lastMag) }
  else if zmax = 0 then
    { values := circleValues expavg zmax cells
      focusMagnitudeRaw := none
      field := none
      focusPos := none
      focusMagnitude := none }
  else if M = 0 then
    { values := circleValues expavg zmax cells
      focusMagnitudeRaw := some M
      field := none
      focusPos := none
      focusMagnitude := some (focus_alpha * M + (1 - focus_alpha) * lastMag) }
  else
    let field := (circleWeights expavg active zmax cells).map (· / M)
    let ps := (activeIdx active).map circlePos
    { values := circleValues expavg zmax cells
      focusMagnitudeRaw := some M
      field := some field
      focusPos := some
        (focus_alpha * ((List.zip field ps).map (fun wp => wp.1 * wp.2.1)).sum
           + (1 - focus_alpha) * lastPos.1,
         focus_alpha * ((List.zip field ps).map (fun wp => wp.1 * wp.2.2)).sum
           + (1 - focus_alpha) * lastPos.2)
      focusMagnitude := some (focus_alpha * M + (1 - focus_alpha) * lastMag) }

/-- The pressure summary in the words of the claim / spec §4.5 (for
comparison with `circleUpdateCore`): weights `w_c = max(0, avg[p,c])` over
enabled cells, `M = Σ w_c`, centroid `Σ w_c·pos_c / M` guarded by `M > 0`. -/
def specPatchPressure (expavg : ℕ → ℚ) (active : ℕ → Bool) (cells : ℕ) :
    ℚ × ℚ × ℚ :=
  let en := ((List.range cells).filter active)
  let ws := en.map (fun c => max 0 (expavg c))
  let M := ws.sum
  if 0 < M then
    (M, ((List.zip ws (en.map circlePos)).map (fun wp => wp.1 * wp.2.1)).sum / M,
        ((List.zip ws (en.map circlePos)).map (fun wp => wp.1 * wp.2.2)).sum / M)
  else
    (M, 0, 0)

/-!
## Patch loop ranges of the consumer code (claim C3)
-/

/-- Embeds `octocan.poll_octocan`: `for patch in range(1, sensor.patches + 1)`. -/
def octocanPollPatches (patches : ℕ) : List ℕ := List.range' 1 patches

/-- Embeds `skinvis.null_update`: `for patch in range(1, sensor.patches + 1)`. -/
def nullUpdatePatches (patches : ℕ) : List ℕ := List.range' 1 patches

/-- Embeds `skinvis2.anim_update`: `for patch in range(sensor.patches)`; each loop
iteration calls `sensor.get_patch_pressure(patch)` with this index. -/
def anim2UpdatePatches (patches : ℕ) : List ℕ := List.range patches

/-!
## mkprofile.py — calibration profile generation
-/

/-- Result of `sklearn.LinearRegression().fit`: an intercept and the
coefficient array, one coefficient per feature column in the order the
columns were stacked. -/
structure FitResult where
  intercept : ℚ
  coef : List ℚ
  deriving Repr, DecidableEq

/-- Prediction of the linear fit of `save_fit.linear_fit`, whose single
feature column is `x`: `coef_[0]*x + intercept_`. -/
def linear_predict (r : FitResult) (x : ℚ) : ℚ :=
  r.coef.getD 0 0 * x + r.intercept

/-- Prediction of the quadratic fit of `save_fit.quadratic_fit`, whose
feature columns are `[x*x, x]` in that order: `coef_[0]*x² + coef_[1]*x +
intercept_`. -/
def quadratic_predict (r : FitResult) (x : ℚ) : ℚ :=
  r.coef.getD 0 0 * x ^ 2 + r.coef.getD 1 0 * x + r.intercept

/-- Embeds `linear_model = [linear_res.intercept_, linear_res.coef_[0], 0]`
(mkprofile.py line 98). -/
def linear_model (r : FitResult) : List ℚ :=
  [r.intercept, r.coef.getD 0 0, 0]

/-- Embeds `quadratic_model = [quadratic_res.intercept_, quadratic_res.coef_[1],
quadratic_res.coef_[0]]` (mkprofile.py line 102). -/
def quadratic_model (r : FitResult) : List ℚ :=
  [r.intercept, r.coef.getD 1 0, r.coef.getD 0 0]

/-- Embeds `--model` choice of mkprofile.py. -/
inductive ModelKind where
  | linear
  | quadratic
  deriving Repr, DecidableEq

/-- The model list `save_fit` returns (mkprofile.py lines 105-108). -/
def save_fit_model (kind : ModelKind) (lin quad : FitResult) : List ℚ :=
  match kind with
  | .linear => linear_model lin
  | .quadratic => quadratic_model quad

/-- The fit's own prediction at `x` for the selected model. -/
def save_fit_predict (kind : ModelKind) (lin quad : FitResult) (x : ℚ) : ℚ :=
  match kind with
  | .linear => linear_predict lin x
  | .quadratic => quadratic_predict quad x

/-- The calibrated-value polynomial in the spec's words:
`c2·Δ² + c1·Δ + c0` with `Δ = r − baseline` (spec §3 Profile). -/
def spec_calibrated (b c0 c1 c2 r : ℚ) : ℚ :=
  c2 * (r - b) ^ 2 + c1 * (r - b) + c0

/-- Client-side conversion of sync.py `plot_cell` (line 506):
`F = lambda x: c0 + c1*(x - b)`. -/
def sync_F (b c0 c1 x : ℚ) : ℚ := c0 + c1 * (x - b)

/-- One `(patch, cell)` group of the concatenated calibration input of
mkprofile.py, together with the fits `save_fit` computes for it. -/
structure CalibEntry where
  patch : ℤ
  cell : ℤ
  baseline0 : ℤ
  lin : FitResult
  quad : FitResult
  deriving Repr

/-- One row of the written profile table:
`[patch, cell, baseline] + model` under columns
`['patch', 'cell', 'baseline', 'c0', 'c1', 'c2']`. -/
structure ProfileRow where
  patch : ℤ
  cell : ℤ
  baseline : ℤ
  c0 : ℚ
  c1 : ℚ
  c2 : ℚ
  deriving Repr

/-- The column names of the profile `DataFrame` (mkprofile.py line 135);
`set_index(['patch', 'cell'])` makes the first two the index. -/
def mkprofileColumns : List String := ["patch", "cell", "baseline", "c0", "c1", "c2"]

/-- The header line `to_csv` writes after `set_index(['patch', 'cell'])`:
index labels first, then the remaining columns, comma separated — the
`DataFrame` column order. -/
def mkprofileHeader : String := String.intercalate "," mkprofileColumns

/-- The rows mkprofile.py appends: one per `(patch, cell)` of `df.index`,
`[patch, cell, baseline0] + model` (lines 128-135). -/
def mkprofileRows (entries : List CalibEntry) (kind : ModelKind) : List ProfileRow :=
  entries.map (fun e =>
    let m := save_fit_model kind e.lin e.quad
    { patch := e.patch, cell := e.cell, baseline := e.baseline0,
      c0 := m.getD 0 0, c1 := m.getD 1 0, c2 := m.getD 2 0 })

/-!
## sync.py — `read_sensor`, the CSV sample-log reader
-/

/-- Embeds `pd.to_datetime(x, unit='s', origin='unix')`: a time value of `x`
seconds since the Unix epoch becomes the pandas timestamp `x·10⁹`
nanoseconds after the epoch. -/
def toDatetimeUnixSeconds (x : ℚ) : ℚ := x * 1000000000

/-- Consume an exact literal at the head of the character list. -/
def dropLit : List Char → List Char → Option (List Char)
  | [], cs => some cs
  | _ :: _, [] => none
  | l :: ls, c :: cs => if c = l then dropLit ls cs else none

/-- One attempt of the regex `patch(\d+)_cell(\d+)` at the head of the
character list: literal `patch`, a nonempty greedy digit run, literal
`_cell`, a nonempty greedy digit run.  (Greedy digit matching needs no
backtracking here since `_` is not a digit.) -/
def patchCellHere (cs : List Char) : Option (ℕ × ℕ) :=
  match dropLit "patch".toList cs with
  | none => none
  | some cs1 =>
    let (d1, cs2) := takeDigits cs1
    if d1.isEmpty then none
    else
      match dropLit "_cell".toList cs2 with
      | none => none
      | some cs3 =>
        let (d2, _) := takeDigits cs3
        if d2.isEmpty then none
        else some (digitsToNat d1, digitsToNat d2)

/-- Embeds `re.search` semantics of `Series.str.extract`: the first position where
the pattern matches, scanning left to right. -/
def patchCellSearch : List Char → Option (ℕ × ℕ)
  | [] => none
  | c :: rest =>
    match patchCellHere (c :: rest) with
    | some pc => some pc
    | none => patchCellSearch rest

/-- Embeds `df.columns.str.extract(r'patch(\d+)_cell(\d+)')` on one column name:
the two captured integers of the first match, if any. -/
def extractPatchCell (s : String) : Option (ℕ × ℕ) := patchCellSearch s.toList

/-- A sensor CSV sample log as `pd.read_csv(..., index_col='time')` sees it:
the non-`time` column names, and one row per line holding the time (seconds
since the Unix epoch) and the cell values (`none` = empty field / NaN). -/
structure SensorCSV where
  header : List String
  rows : List (ℚ × List (Option ℤ))

/-- sync.py `read_sensor` (lines 71-82, without the optional `--shift`):
parse times with `to_datetime(unit='s', origin='unix')`, `fillna(0)` and
cast values to int, and rename the data columns to the integer pairs
captured by `patch(\d+)_cell(\d+)`.  `astype(int)` raises on the NaN that
`str.extract` produces for a column without a match, so such a column is
never accepted as cell data. -/
def read_sensor (file : SensorCSV) :
    Except String (List (ℕ × ℕ) × List (ℚ × List ℤ)) :=
  let addrs := file.header.map extractPatchCell
  if addrs.all Option.isSome then
    .ok (addrs.filterMap id,
         file.rows.map (fun r => (toDatetimeUnixSeconds r.1, r.2.map (·.getD 0))))
  else
    .error "cannot convert non-finite values (NA or inf) to integer"

/-- Decimal digit characters of a number, most significant first. -/
def decChars (n : ℕ) : List Char :=
  if n = 0 then ['0'] else ((Nat.digits 10 n).map Nat.digitChar).reverse

/-- Modelled from the spec: the sample-log writer (part of the native core,
absent from the sources) heads each cell column `patch<p>_cell<c>` with the
patch and cell ids in decimal (spec §6, CSV sample log). -/
def specColName (p c : ℕ) : String :=
  String.mk ("patch".toList ++ (decChars p ++ ("_cell".toList ++ decChars c)))

/-!
## The plot-update functions (frame effects)

Each `*_update` function is a state transformer over the module globals it
touches (`total_frames`, style-specific arrays) plus the plot data it
rewrites.  `cmdline` is carried in every state to record that no update
reassigns it after the initial parse.
-/

/-- The parsed command line (the fields the update functions consult). -/
structure Cmdline where
  patches : ℕ
  cells : ℕ
  patch : ℕ
  pair : ℕ × ℕ
  profile : Option String
  zmin : ℚ
  zmax : ℚ

/-- skinvis.py `allline_update` y-limits: `(h.min(), h.max())`, replaced by
`(-10, 10)` when they coincide. -/
def alllineLimits (h : List ℚ) : ℚ × ℚ :=
  let hmin := listMin h
  let hmax := listMax h
  if hmin = hmax then (-10, 10) else (hmin, hmax)

/-- Globals and plot data touched by `allline_update`. -/
structure AlllineState where
  ylim : ℕ × ℕ → ℚ × ℚ
  ydata : ℕ × ℕ → List ℚ
  total_frames : ℕ
  cmdline : Cmdline

/-- skinvis.py `allline_update` (lines 285-306): for every
`patch ∈ 1..patches` and `cell ∈ 0..cells-1`, refresh that axis' limits and
line data from `get_history`, then `total_frames += 1`. -/
def allline_update (sensor : Skin) (s : AlllineState) : AlllineState :=
  { s with
    ylim := fun pc =>
      if 1 ≤ pc.1 ∧ pc.1 ≤ sensor.patches ∧ pc.2 < sensor.cells then
        alllineLimits (sensor.historyData pc.1 pc.2)
      else s.ylim pc
    ydata := fun pc =>
      if 1 ≤ pc.1 ∧ pc.1 ≤ sensor.patches ∧ pc.2 < sensor.cells then
        sensor.historyData pc.1 pc.2
      else s.ydata pc
    total_frames := s.total_frames + 1 }

/-- Globals and plot data touched by `circle_update`: the circle colors, the
`circle_value` array, and the replaced focus artist (center before the
`2·√2` display rescaling, and radius). -/
structure CircleState where
  colors : List ℚ
  circle_value : List ℚ
  circle_focus : Option (ℚ × ℚ) × ℚ
  total_frames : ℕ
  cmdline : Cmdline

/-- skinvis.py `circle_update` (lines 509-557): recolor every cell from
`abs(get_expavg)`, run the aggregation of `circleUpdateCore`, replace the
focus circle, `total_frames += 1`.  (`patch`, `last_pos`, `last_magnitude`
and the active mask come from the `args` tuple built by `circle_init`.
A NaN magnitude keeps the minimum radius: CPython's
`max(FOCUS_RADIUS_MIN, x)` returns its first argument when `x` is NaN,
because `nan > a` is false.) -/
def circle_update (sensor : Skin) (patch : ℕ) (active : ℕ → Bool)
    (lastPos : ℚ × ℚ) (lastMag : ℚ) (s : CircleState) : CircleState :=
  let f := circleUpdateCore (sensor.expavg patch) active s.cmdline.zmax
    lastPos lastMag sensor.cells
  { s with
    colors := circleColors (sensor.expavg patch) s.cmdline.zmin s.cmdline.zmax sensor.cells
    circle_value := f.values
    circle_focus := (f.focusPos,
      match f.focusMagnitude with
      | some m => max FOCUS_RADIUS_MIN (FOCUS_RADIUS * m)
      | none => FOCUS_RADIUS_MIN)
    total_frames := s.total_frames + 1 }

/-- Embeds `bar2_height_max = 1000 if cmdline.profile else 10000` (line 562). -/
def bar2HeightMax (profile : Option String) : ℚ :=
  if profile.isSome then 1000 else 10000

/-- Globals and plot data touched by `bar_update`. -/
structure BarState where
  heights : List ℚ
  total_frames : ℕ
  cmdline : Cmdline

/-- skinvis.py `bar_update` (lines 576-590): start from zero heights and,
for cells `[4, 2]`, set position `cell_to_pos[cell]` to the clipped
`get_expavg(patch, cell)`; redraw the bars; `total_frames += 1`. -/
def bar_update (sensor : Skin) (s : BarState) : BarState :=
  let patch := s.cmdline.patch
  let height0 : List ℚ := List.replicate sensor.cells 0
  let height := [4, 2].foldl (fun h cell =>
    h.set (cellToPos cell)
      (pyClip 0 (bar2HeightMax s.cmdline.profile) (sensor.expavg patch cell))) height0
  { s with heights := height, total_frames := s.total_frames + 1 }

/-- skinvis.py `bar2_mkbars` (lines 595-609): clipped expavg profiles of the
two paired patches, the top one negated. -/
def bar2_mkbars (sensor : Skin) (cmd : Cmdline) : List ℚ × List ℚ :=
  let hmax := bar2HeightMax cmd.profile
  ((sensor.expavgAll cmd.pair.1).map (fun v => -(pyClip 0 hmax v)),
   (sensor.expavgAll cmd.pair.2).map (pyClip 0 hmax))

/-- Globals and plot data touched by `bar2_update`. -/
structure Bar2State where
  bars : List ℚ × List ℚ
  total_frames : ℕ
  cmdline : Cmdline

/-- skinvis.py `bar2_update` (lines 621-631): clear the axes, rebuild both
bar collections, `total_frames += 1`. -/
def bar2_update (sensor : Skin) (s : Bar2State) : Bar2State :=
  { s with bars := bar2_mkbars sensor s.cmdline, total_frames := s.total_frames + 1 }

/-- Globals and plot data touched by `web_update`. -/
structure WebState where
  ydata : List ℚ
  printed : List (List ℚ)
  total_frames : ℕ
  cmdline : Cmdline

/-- skinvis.py `web_update` (lines 648-668): per-patch mean of `get_expavg`
over all cells, first patch appended again to close the loop; every 20th
frame the means are printed; `total_frames += 1`. -/
def web_update (frame : ℕ) (sensor : Skin) (s : WebState) : WebState :=
  let patch_avg := (List.range' 1 sensor.patches).map (fun patch =>
    ((List.range sensor.cells).map (sensor.expavg patch)).sum / (sensor.cells : ℚ))
  let patch_avg := patch_avg ++ [patch_avg.getD 0 0]
  { s with
    ydata := patch_avg
    printed :=
      if frame % 20 = 0 then
        s.printed ++ [(List.range sensor.patches).map (fun p => patch_avg.getD p 0)]
      else s.printed
    total_frames := s.total_frames + 1 }

/-- One `(patch, cell)` row of the running statistics `DataFrame` of the
`text` style (columns `min`, `max`, `batch`, `count`). -/
structure TextStats where
  vmin : ℚ
  vmax : ℚ
  batch : ℚ
  count : ℚ

/-- skinvis.py `text_mkstr` (lines 670-680): merge the cell's history into
the running min/max, accumulate the truncated history mean into `batch`,
bump `count`; the rendered string shows `vmax`, `history[-1]`, `vmin`. -/
def text_mkstr (df : ℕ × ℕ → TextStats) (sensor : Skin) (patch cell : ℕ) :
    TextStats × (ℚ × ℚ × ℚ) :=
  let h := sensor.historyData patch cell
  let st := df (patch, cell)
  let vmax := max st.vmax (listMax h)
  let vmin := min st.vmin (listMin h)
  ({ vmin := vmin, vmax := vmax,
     batch := st.batch + (pyInt (h.sum / (h.length : ℚ)) : ℚ),
     count := st.count + 1 },
   (vmax, h.getLastD 0, vmin))

/-- Globals and plot data touched by `text_update`. -/
structure TextState where
  df : ℕ × ℕ → TextStats
  texts : ℕ × ℕ → ℚ × ℚ × ℚ
  total_frames : ℕ
  cmdline : Cmdline

/-- skinvis.py `text_update` (lines 721-728): for every
`patch ∈ 1..cmdline.patches` and every cell of `placement`, update the
statistics row and the displayed text; `total_frames += 1`.  (Each cell
appears exactly once in `placement`, and `text_mkstr` for `(p, c)` reads
only row `(p, c)`, so the loop acts pointwise.) -/
def text_update (sensor : Skin) (s : TextState) : TextState :=
  { s with
    df := fun pc =>
      if 1 ≤ pc.1 ∧ pc.1 ≤ s.cmdline.patches ∧ pc.2 ∈ posToCell then
        (text_mkstr s.df sensor pc.1 pc.2).1
      else s.df pc
    texts := fun pc =>
      if 1 ≤ pc.1 ∧ pc.1 ≤ s.cmdline.patches ∧ pc.2 ∈ posToCell then
        (text_mkstr s.df sensor pc.1 pc.2).2
      else s.texts pc
    total_frames := s.total_frames + 1 }

/-- Embeds `threshold = 10` (skinvis.py line 733). -/
def null_threshold : ℚ := 10

/-- Globals touched by `null_update`: the printed console lines (per patch,
the mean of the nonzero expavg values — `none` for numpy's NaN mean of an
empty selection — and the `m > threshold` activity marker). -/
structure NullState where
  printed : List (List (Option ℚ × Bool))
  total_frames : ℕ
  cmdline : Cmdline

/-- skinvis.py `null_update` (lines 734-743): for every patch `1..patches`,
print the mean of the nonzero cell averages and an activity marker;
`total_frames += 1`. -/
def null_update (sensor : Skin) (s : NullState) : NullState :=
  let line := (nullUpdatePatches sensor.patches).map (fun patch =>
    let values := (List.range sensor.cells).map (sensor.expavg patch)
    let nz := values.filter (· ≠ 0)
    if nz.isEmpty then ((none : Option ℚ), false)
    else (some (nz.sum / (nz.length : ℚ)), decide (nz.sum / (nz.length : ℚ) > null_threshold)))
  { s with printed := s.printed ++ [line], total_frames := s.total_frames + 1 }

/-- Embeds `CIRCLE_SCALE = 2` (skinvis2.py line 41). -/
def CIRCLE_SCALE : ℚ := 2

/-- Embeds `np.maximum` on the whole-skin state matrix. -/
def elementwiseMax (a b : List (List ℚ)) : List (List ℚ) :=
  List.zipWith (List.zipWith max) a b

/-- Embeds `A = np.absolute(np.array(state[patch])[placement])`. -/
def arrangeByPlacement (row : List ℚ) : List (List ℚ) :=
  placement.map (List.map (fun c => |row.getD c 0|))

/-- Globals and plot data touched by skinvis2.py `anim_update`. -/
structure Anim2State where
  state_max : Option (List (List ℚ))
  ims : List (List (List ℚ))
  offsets : List (ℚ × ℚ)
  sizes : List ℚ
  total_frames : ℕ
  cmdline : Cmdline

/-- skinvis2.py `anim_update` (lines 181-211): fold the snapshot into the
running elementwise maximum, and for every `patch ∈ range(sensor.patches)`
redraw the heat image and move/resize the pressure circle from
`get_patch_pressure(patch)`; `total_frames += 1`. -/
def anim2_update (sensor : Skin) (s : Anim2State) : Anim2State :=
  let state := sensor.stateData
  let state_max := match s.state_max with
    | none => state
    | some m => elementwiseMax m state
  let pressures := (anim2UpdatePatches sensor.patches).map sensor.patchPressure
  { s with
    state_max := some state_max
    ims := (anim2UpdatePatches sensor.patches).map (fun patch =>
      arrangeByPlacement (state.getD patch []))
    offsets := pressures.map (fun pr => (pr.2.1 + 3/2, pr.2.2 + 3/2))
    sizes := pressures.map (fun pr =>
      if pr.1 < 10 then 1/1000 else max 1 (CIRCLE_SCALE * pr.1))
    total_frames := s.total_frames + 1 }

/-- Globals and plot data touched by tune.py `anim_update` (via the module
`args` dictionary). -/
structure TuneAnimState where
  collection : List ℚ
  cell_lines : List CellLine
  avg_line : CellLine
  pressure_line : CellLine
  offset : ℚ × ℚ
  sizes : List ℚ
  total_frames : ℕ
  cmdline : Cmdline

/-- tune.py `anim_update` (lines 439-462): refresh the heat collection from
`get_patch_state`, feed each `CellLine` its cell's value, the `AvgLine` the
patch mean (its `add` ignores the passed array and uses `get_patch_mean`),
the `PressureLine` the pressure magnitude, and move/resize the pressure
circle; `total_frames += 1`. -/
def tuneAnim_update (sensor : Skin) (s : TuneAnimState) : TuneAnimState :=
  let patch := s.cmdline.patch
  let state := sensor.patchState patch
  let pr := sensor.patchPressure patch
  { s with
    collection := state
    cell_lines := s.cell_lines.mapIdx (fun i cl => cl.add (state.getD i 0))
    avg_line := s.avg_line.add (sensor.patchMean patch)
    pressure_line := s.pressure_line.add pr.1
    offset := (pr.2.1, pr.2.2)
    sizes := if pr.1 < 10 then [1/1000] else [max 1 (2 * pr.1)]
    total_frames := s.total_frames + 1 }

end Skinvis

-- ===================================================================
-- THEOREMS
-- ===================================================================

namespace Skinvis

/-- A concrete sensor snapshot used by witnesses. -/
def sampleSkin : Skin :=
  { patches := 1
    cells := 16
    expavg := fun _ _ => 0
    historyData := fun _ _ => []
    stateData := [[]]
    patchState := fun _ => []
    patchMean := fun _ => 0
    patchPressure := fun _ => (0, 0, 0)
    expavgAll := fun _ => []
    c1 := fun _ _ => 1
    targetPressure := 100 }

lemma mem_activeIdx {active : ℕ → Bool} {c : ℕ} (hc : c ∈ activeIdx active) :
    c < 16 ∧ active c = true := by
  simpa [activeIdx, List.mem_filter, List.mem_range] using hc

lemma circleValues_getD (e : ℕ → ℚ) (z : ℚ) {c : ℕ} (h : c < 16) :
    (circleValues e z 16).getD c 0 = min |e c| z := by
  simp [circleValues, List.getD_eq_getElem?_getD, List.getElem?_map,
    List.getElem?_range h, h]

lemma circleWeights_eq (e : ℕ → ℚ) (active : ℕ → Bool) (z : ℚ) :
    circleWeights e active z 16 = (activeIdx active).map (clipWeight e z) := by
  refine List.map_congr_left (fun c hc => ?_)
  rw [circleValues_getD e z (mem_activeIdx hc).1, clipWeight]

lemma circleMagnitudeRaw_eq (e : ℕ → ℚ) (active : ℕ → Bool) (z : ℚ) :
    circleMagnitudeRaw e active z 16 = ((activeIdx active).map (clipWeight e z)).sum := by
  rw [circleMagnitudeRaw, circleWeights_eq]

lemma circleUpdateCore_raw_of (e : ℕ → ℚ) (active : ℕ → Bool)
    (z : ℚ) (lp : ℚ × ℚ) (lm : ℚ) (cells : ℕ)
    (hact : activeIdx active ≠ []) (hz : z ≠ 0) :
    (circleUpdateCore e active z lp lm cells).focusMagnitudeRaw
      = some (circleMagnitudeRaw e active z cells) := by
  simp only [circleUpdateCore]
  rw [if_neg hact, if_neg hz]
  split <;> rfl

lemma circleUpdateCore_mag_of (e : ℕ → ℚ) (active : ℕ → Bool)
    (z : ℚ) (lp : ℚ × ℚ) (lm : ℚ) (cells : ℕ)
    (hact : activeIdx active ≠ []) (hz : z ≠ 0) :
    (circleUpdateCore e active z lp lm cells).focusMagnitude
      = some (focus_alpha * circleMagnitudeRaw e active z cells
        + (1 - focus_alpha) * lm) := by
  simp only [circleUpdateCore]
  rw [if_neg hact, if_neg hz]
  split <;> rfl

/-- C8: each plot-update function (`allline_update`, `circle_update`,
`bar_update`, `bar2_update`, `web_update`, `text_update`, `null_update`,
and `anim_update` of both skinvis2.py and tune.py) increments the
module-global `total_frames` by exactly one and leaves the module-global
`cmdline` untouched. -/
theorem frame_counter_and_cmdline_invariant :
    (∀ (sensor : Skin) (s : AlllineState),
      (allline_update sensor s).total_frames = s.total_frames + 1 ∧
      (allline_update sensor s).cmdline = s.cmdline) ∧
    (∀ (sensor : Skin) (patch : ℕ) (active : ℕ → Bool) (lp : ℚ × ℚ) (lm : ℚ)
       (s : CircleState),
      (circle_update sensor patch active lp lm s).total_frames = s.total_frames + 1 ∧
      (circle_update sensor patch active lp lm s).cmdline = s.cmdline) ∧
    (∀ (sensor : Skin) (s : BarState),
      (bar_update sensor s).total_frames = s.total_frames + 1 ∧
      (bar_update sensor s).cmdline = s.cmdline) ∧
    (∀ (sensor : Skin) (s : Bar2State),
      (bar2_update sensor s).total_frames = s.total_frames + 1 ∧
      (bar2_update sensor s).cmdline = s.cmdline) ∧
    (∀ (frame : ℕ) (sensor : Skin) (s : WebState),
      (web_update frame sensor s).total_frames = s.total_frames + 1 ∧
      (web_update frame sensor s).cmdline = s.cmdline) ∧
    (∀ (sensor : Skin) (s : TextState),
      (text_update sensor s).total_frames = s.total_frames + 1 ∧
      (text_update sensor s).cmdline = s.cmdline) ∧
    (∀ (sensor : Skin) (s : NullState),
      (null_update sensor s).total_frames = s.total_frames + 1 ∧
      (null_update sensor s).cmdline = s.cmdline) ∧
    (∀ (sensor : Skin) (s : Anim2State),
      (anim2_update sensor s).total_frames = s.total_frames + 1 ∧
      (anim2_update sensor s).cmdline = s.cmdline) ∧
    (∀ (sensor : Skin) (s : TuneAnimState),
      (tuneAnim_update sensor s).total_frames = s.total_frames + 1 ∧
      (tuneAnim_update sensor s).cmdline = s.cmdline) := by
  refine ⟨?_, ?_, ?_, ?_, ?_, ?_, ?_, ?_, ?_⟩ <;> intros <;> exact ⟨rfl, rfl⟩

/-- C3: the consumer loops in `octocan.poll_octocan` and
`skinvis.null_update` pass 1-based patch ids `1..patches` to the facade
accessors, but `skinvis2.anim_update` iterates `range(sensor.patches)` and
therefore calls `get_patch_pressure` with `0..patches-1`: at the octocan
configuration of 8 patches it calls patch `0` and never patch `8`. -/
theorem patch_loop_ranges :
    octocanPollPatches 8 = [1, 2, 3, 4, 5, 6, 7, 8] ∧
    nullUpdatePatches 8 = [1, 2, 3, 4, 5, 6, 7, 8] ∧
    anim2UpdatePatches 8 = [0, 1, 2, 3, 4, 5, 6, 7] ∧
    0 ∈ anim2UpdatePatches 8 ∧ 8 ∉ anim2UpdatePatches 8 := by
  refine ⟨?_, ?_, ?_, ?_, ?_⟩ <;> decide

/-- C4: for either model choice, the row `[c0, c1, c2]` that `save_fit`
returns is ordered so that the fit's own prediction at `Δ = x − baseline`
equals `c2·Δ² + c1·Δ + c0`; and the client-side conversion of sync.py's
`plot_cell` computes `F(x) = c0 + c1·(x − b)`, which for the linear model
(where `c2 = 0`) is exactly the calibrated-value polynomial. -/
theorem profile_coefficient_order (lin quad : FitResult) (kind : ModelKind)
    (b x : ℚ) :
    spec_calibrated b ((save_fit_model kind lin quad).getD 0 0)
        ((save_fit_model kind lin quad).getD 1 0)
        ((save_fit_model kind lin quad).getD 2 0) x
      = save_fit_predict kind lin quad (x - b) ∧
    sync_F b ((save_fit_model kind lin quad).getD 0 0)
        ((save_fit_model kind lin quad).getD 1 0) x
      = (save_fit_model kind lin quad).getD 0 0
        + (save_fit_model kind lin quad).getD 1 0 * (x - b) ∧
    (kind = .linear →
      sync_F b ((save_fit_model kind lin quad).getD 0 0)
          ((save_fit_model kind lin quad).getD 1 0) x
        = spec_calibrated b ((save_fit_model kind lin quad).getD 0 0)
            ((save_fit_model kind lin quad).getD 1 0)
            ((save_fit_model kind lin quad).getD 2 0) x) := by
  cases kind <;>
    simp only [save_fit_model, save_fit_predict, linear_model, quadratic_model,
      linear_predict, quadratic_predict, spec_calibrated, sync_F,
      List.getD_cons_zero, List.getD_cons_succ]
  · exact ⟨by ring, by ring, fun _ => by ring⟩
  · exact ⟨by ring, by ring, fun h => by cases h⟩

/-- Witness for `profile_coefficient_order` at a concrete linear fit. -/
theorem profile_coefficient_order_witness :
    ModelKind.linear = ModelKind.linear ∧
    sync_F 10 ((save_fit_model .linear ⟨2, [3]⟩ ⟨1, [5, 7]⟩).getD 0 0)
        ((save_fit_model .linear ⟨2, [3]⟩ ⟨1, [5, 7]⟩).getD 1 0) 12
      = spec_calibrated 10 ((save_fit_model .linear ⟨2, [3]⟩ ⟨1, [5, 7]⟩).getD 0 0)
          ((save_fit_model .linear ⟨2, [3]⟩ ⟨1, [5, 7]⟩).getD 1 0)
          ((save_fit_model .linear ⟨2, [3]⟩ ⟨1, [5, 7]⟩).getD 2 0) 12 :=
  ⟨rfl, (profile_coefficient_order ⟨2, [3]⟩ ⟨1, [5, 7]⟩ .linear 10 12).2.2 rfl⟩

/-- C5: the written profile is a CSV headed exactly
`patch,cell,baseline,c0,c1,c2`, with one row per `(patch, cell)` of the
input index, keys preserved (so distinct input keys give no duplicate
rows), and under the linear model every row has `c2 = 0`. -/
theorem profile_file_shape (entries : List CalibEntry) (kind : ModelKind) :
    mkprofileHeader = "patch,cell,baseline,c0,c1,c2" ∧
    (mkprofileRows entries kind).length = entries.length ∧
    (mkprofileRows entries kind).map (fun r => (r.patch, r.cell))
      = entries.map (fun e => (e.patch, e.cell)) ∧
    ((entries.map (fun e => (e.patch, e.cell))).Nodup →
      ((mkprofileRows entries kind).map (fun r => (r.patch, r.cell))).Nodup) ∧
    (kind = .linear → ∀ r ∈ mkprofileRows entries kind, r.c2 = 0) := by
  have hkeys : (mkprofileRows entries kind).map (fun r => (r.patch, r.cell))
      = entries.map (fun e => (e.patch, e.cell)) := by
    simp [mkprofileRows, List.map_map]
  refine ⟨rfl, by simp [mkprofileRows], hkeys, fun h => hkeys ▸ h, ?_⟩
  rintro rfl r hr
  simp only [mkprofileRows, List.mem_map] at hr
  obtain ⟨e, _, rfl⟩ := hr
  simp [save_fit_model, linear_model, List.getD]

/-- Witness for `profile_file_shape` on a concrete two-entry input. -/
theorem profile_file_shape_witness :
    ([((1 : ℤ), (0 : ℤ)), (1, 1)].Nodup →
      ((mkprofileRows
          [⟨1, 0, 5, ⟨2, [3]⟩, ⟨1, [5, 7]⟩⟩, ⟨1, 1, 6, ⟨4, [9]⟩, ⟨2, [8, 6]⟩⟩]
          .linear).map (fun r => (r.patch, r.cell))).Nodup) ∧
    (ModelKind.linear = ModelKind.linear →
      ∀ r ∈ mkprofileRows
          [⟨1, 0, 5, ⟨2, [3]⟩, ⟨1, [5, 7]⟩⟩, ⟨1, 1, 6, ⟨4, [9]⟩, ⟨2, [8, 6]⟩⟩]
          .linear, r.c2 = 0) := by
  have h := profile_file_shape
    [⟨1, 0, 5, ⟨2, [3]⟩, ⟨1, [5, 7]⟩⟩, ⟨1, 1, 6, ⟨4, [9]⟩, ⟨2, [8, 6]⟩⟩]
    .linear
  exact ⟨fun _ => h.2.2.2.1 (by decide), h.2.2.2.2⟩

/-- C10: submitting a non-parsable string to the gain editor makes no
`set_c1` call and leaves the sensor unchanged; a parsable string sets the
cell's `c1` to exactly the parsed value; in both cases the text box is then
reset to the sensor's current `c1`. -/
theorem gain_editor_set_c1 (sensor : Skin) (patch cell : ℕ) (str : String) :
    (pyFloat str = none →
      (ParamEditor.set_c1 sensor patch cell str).sensor = sensor ∧
      (ParamEditor.set_c1 sensor patch cell str).calls = []) ∧
    (∀ v, pyFloat str = some v →
      ((ParamEditor.set_c1 sensor patch cell str).sensor).get_c1 patch cell = v ∧
      (ParamEditor.set_c1 sensor patch cell str).calls = [(patch, cell, v)]) ∧
    (ParamEditor.set_c1 sensor patch cell str).textbox
      = ((ParamEditor.set_c1 sensor patch cell str).sensor).get_c1 patch cell := by
  refine ⟨fun h => ?_, fun v hv => ?_, ?_⟩
  · simp [ParamEditor.set_c1, h]
  · simp [ParamEditor.set_c1, hv, Skin.get_c1, Skin.set_c1]
  · cases h : pyFloat str <;> simp [ParamEditor.set_c1, h]

lemma CellLine.add_spec (cl : CellLine) (v : ℚ) (hauto : cl.automode = true) :
    (cl.add v).values = cl.values.set cl.pos v ∧
    (cl.add v).pos = (cl.pos + 1) % cl.values.length ∧
    (cl.add v).automode = true ∧
    (cl.add v).ydata = (cl.add v).rotated := by
  rcases cl with ⟨values, pos, automode, target, uv, lv, ut, lt, ylim, ydata, editor⟩
  simp only at hauto
  subst hauto
  simp only [CellLine.add, CellLine.update_minmax, CellLine.rotated, List.length_set]
  split_ifs <;> refine ⟨?_, ?_, ?_, ?_⟩ <;>
    first
    | rfl
    | simp_all [CellLine.rotated]

lemma rotate_set_step (vs : List ℚ) (p : ℕ) (v : ℚ) (hp : p < vs.length) :
    (vs.set p v).drop ((p + 1) % vs.length) ++ (vs.set p v).take ((p + 1) % vs.length)
      = (vs.drop p ++ vs.take p).drop 1 ++ [v] := by
  have hset := List.set_eq_take_cons_drop v hp
  have htklen : (vs.take p).length = p := by
    simp [Nat.le_of_lt hp]
  have hdropp : vs.drop p = vs[p] :: vs.drop (p + 1) := List.drop_eq_getElem_cons hp
  rcases Nat.lt_or_ge (p + 1) vs.length with h | h
  · rw [Nat.mod_eq_of_lt h, hset]
    have hdrop : (vs.take p ++ v :: vs.drop (p + 1)).drop (p + 1)
        = vs.drop (p + 1) := by
      have hd := @List.drop_append ℚ (vs.take p) (v :: vs.drop (p + 1)) 1
      rw [htklen] at hd
      simpa using hd
    have htake : (vs.take p ++ v :: vs.drop (p + 1)).take (p + 1)
        = vs.take p ++ [v] := by
      have ht := @List.take_append ℚ (vs.take p) (v :: vs.drop (p + 1)) 1
      rw [htklen] at ht
      simpa using ht
    rw [hdrop, htake, hdropp]
    simp only [List.cons_append, List.drop_succ_cons, List.drop_zero, List.append_assoc]
  · have hlen : p + 1 = vs.length := by omega
    rw [← hlen, Nat.mod_self]
    have hdrops : vs.drop (p + 1) = [] := by
      apply List.drop_eq_nil_of_le
      omega
    rw [hset, hdrops]
    simp only [List.drop_zero, List.take_zero, List.append_nil]
    rw [hdropp, hdrops]
    simp

lemma lastN_snoc (n : ℕ) (L : List ℚ) (v : ℚ) (h1 : 1 ≤ n) (h2 : n ≤ L.length) :
    lastN n (L ++ [v]) = (lastN n L).drop 1 ++ [v] := by
  unfold lastN
  have hk : L.length + 1 - n ≤ L.length := by omega
  rw [List.length_append, List.length_singleton,
    List.drop_append_of_le_length hk, List.drop_drop]
  have : L.length - n + 1 = L.length + 1 - n := by omega
  rw [this]

lemma cellline_fold_invariant (history : ℕ) (h : 0 < history) :
    ∀ (xs : List ℚ) (cl : CellLine) (hist : List ℚ),
      cl.values.length = history → cl.pos < history → cl.automode = true →
      cl.rotated = lastN history hist → history ≤ hist.length →
      cl.ydata = cl.rotated →
      (xs.foldl CellLine.add cl).values.length = history ∧
      (xs.foldl CellLine.add cl).pos < history ∧
      (xs.foldl CellLine.add cl).automode = true ∧
      (xs.foldl CellLine.add cl).rotated = lastN history (hist ++ xs) ∧
      (xs.foldl CellLine.add cl).ydata = (xs.foldl CellLine.add cl).rotated := by
  intro xs
  induction xs with
  | nil =>
    intro cl hist hlen hpos hauto hrot hge hyd
    exact ⟨hlen, hpos, hauto, by rw [List.append_nil]; exact hrot, hyd⟩
  | cons v xs ih =>
    intro cl hist hlen hpos hauto hrot hge hyd
    obtain ⟨hv, hp, ha, hy⟩ := cl.add_spec v hauto
    have hrot' : (cl.add v).rotated = lastN history (hist ++ [v]) := by
      rw [CellLine.rotated, hv, hp, hlen]
      rw [← hlen] at hpos ⊢
      rw [rotate_set_step cl.values cl.pos v hpos, ← CellLine.rotated, hrot, hlen]
      exact (lastN_snoc history hist v h hge).symm
    have hstep := ih (cl.add v) (hist ++ [v])
      (by rw [hv, List.length_set, hlen])
      (by rw [hp, hlen]; exact Nat.mod_lt _ h)
      ha hrot'
      (by simpa using Nat.le_succ_of_le hge)
      hy
    have hl : hist ++ v :: xs = (hist ++ [v]) ++ xs := by simp
    rw [List.foldl_cons, hl]
    exact hstep

lemma digitChar_spec : ∀ d, d < 10 →
    (Nat.digitChar d).isDigit = true ∧ charDigit (Nat.digitChar d) = d := by
  decide

lemma decChars_all_digits (n : ℕ) : ∀ c ∈ decChars n, c.isDigit = true := by
  intro c hc
  rw [decChars] at hc
  split at hc
  · simp at hc
    subst hc
    decide
  · simp only [List.mem_reverse, List.mem_map] at hc
    obtain ⟨d, hd, rfl⟩ := hc
    exact (digitChar_spec d (Nat.digits_lt_base (by norm_num) hd)).1

lemma decChars_ne_nil (n : ℕ) : decChars n ≠ [] := by
  rw [decChars]
  split
  · simp
  · simp only [ne_eq, List.reverse_eq_nil_iff, List.map_eq_nil_iff]
    exact Nat.digits_ne_nil_iff_ne_zero.mpr (by assumption)

lemma takeDigits_split (A B : List Char) (hA : ∀ c ∈ A, c.isDigit = true)
    (hB : ∀ b t, B = b :: t → b.isDigit = false) :
    takeDigits (A ++ B) = (A, B) := by
  induction A with
  | nil =>
    cases B with
    | nil => rfl
    | cons b t => simp [takeDigits, hB b t rfl]
  | cons a A ih =>
    simp [takeDigits, hA a (List.mem_cons_self a A), List.append_eq,
      ih (fun c hc => hA c (List.mem_cons_of_mem a hc))]

lemma dropLit_self (L r : List Char) : dropLit L (L ++ r) = some r := by
  induction L with
  | nil => rfl
  | cons l L ih => simp [dropLit, ih]

lemma foldl_digitChars (ds : List ℕ) (h : ∀ d ∈ ds, d < 10) (a : ℕ) :
    List.foldl (fun acc c => 10 * acc + charDigit c) a ((ds.map Nat.digitChar).reverse)
      = a * 10 ^ ds.length + Nat.ofDigits 10 ds := by
  induction ds generalizing a with
  | nil => simp [Nat.ofDigits]
  | cons d ds ih =>
    simp only [List.map_cons, List.reverse_cons, List.foldl_append, List.foldl_cons,
      List.foldl_nil, List.length_cons, Nat.ofDigits_cons]
    rw [ih (fun x hx => h x (List.mem_cons_of_mem d hx)) a,
      (digitChar_spec d (h d (List.mem_cons_self d ds))).2]
    ring

lemma digitsToNat_decChars (n : ℕ) : digitsToNat (decChars n) = n := by
  rw [decChars]
  split
  · subst n
    decide
  · rw [digitsToNat,
      foldl_digitChars (Nat.digits 10 n) (fun d hd => Nat.digits_lt_base (by norm_num) hd) 0]
    simp [Nat.ofDigits_digits]

lemma patchCellHere_colName (p c : ℕ) :
    patchCellHere ("patch".toList ++ (decChars p ++ ("_cell".toList ++ decChars c)))
      = some (p, c) := by
  have h1 : takeDigits (decChars p ++ ("_cell".toList ++ decChars c))
      = (decChars p, "_cell".toList ++ decChars c) := by
    refine takeDigits_split _ _ (decChars_all_digits p) ?_
    rintro b t hbt
    rw [show ("_cell".toList ++ decChars c : List Char)
        = '_' :: ("cell".toList ++ decChars c) from rfl] at hbt
    injection hbt with hb _
    rw [← hb]
    rfl
  have h2 : takeDigits (decChars c) = (decChars c, []) := by
    have h := takeDigits_split (decChars c) [] (decChars_all_digits c)
      (by rintro b t hbt; cases hbt)
    simpa using h
  have hp1 : ((decChars p).isEmpty = true) = False := by
    simp [List.isEmpty_iff, decChars_ne_nil p]
  have hc1 : ((decChars c).isEmpty = true) = False := by
    simp [List.isEmpty_iff, decChars_ne_nil c]
  simp only [patchCellHere, dropLit_self, h1, hp1, if_false, h2, hc1,
    digitsToNat_decChars]

lemma extract_specColName (p c : ℕ) :
    extractPatchCell (specColName p c) = some (p, c) := by
  have hpc : patchCellHere
      ('p' :: ("atch".toList ++ (decChars p ++ ("_cell".toList ++ decChars c))))
      = some (p, c) := patchCellHere_colName p c
  rw [extractPatchCell,
    show (specColName p c).toList
      = 'p' :: ("atch".toList ++ (decChars p ++ ("_cell".toList ++ decChars c)))
      from rfl]
  simp only [patchCellSearch, hpc]

/-- C7: the sample-log reader takes the `time` column as seconds since the
Unix epoch (each index entry is the pandas timestamp of that many seconds
after the epoch), recognizes every data column by the pattern
`patch<p>_cell<c>` — the canonical column name for cell `(p, c)` is captured
back as exactly the pair `(p, c)` — and produces a table whose columns are
keyed by those integer pairs; a header containing any column without the
pattern makes `astype(int)` raise, so such a column is never accepted as
cell data. -/
theorem sensor_log_reader :
    (∀ p c : ℕ, extractPatchCell (specColName p c) = some (p, c)) ∧
    (∀ file : SensorCSV,
      (∀ s ∈ file.header, (extractPatchCell s).isSome = true) →
      read_sensor file = .ok (file.header.filterMap extractPatchCell,
        file.rows.map (fun r => (toDatetimeUnixSeconds r.1, r.2.map (·.getD 0))))) ∧
    (∀ file : SensorCSV,
      (∃ s ∈ file.header, extractPatchCell s = none) →
      read_sensor file
        = .error "cannot convert non-finite values (NA or inf) to integer") := by
  refine ⟨extract_specColName, fun file h => ?_, fun file h => ?_⟩
  · have hcond : (file.header.map extractPatchCell).all Option.isSome = true := by
      rw [List.all_eq_true]
      intro a ha
      rw [List.mem_map] at ha
      obtain ⟨s, hs, rfl⟩ := ha
      exact h s hs
    rw [read_sensor, if_pos hcond]
    simp [List.filterMap_map, Function.comp]
  · have hcond : ¬((file.header.map extractPatchCell).all Option.isSome = true) := by
      rw [List.all_eq_true]
      push_neg
      obtain ⟨s, hs, hnone⟩ := h
      exact ⟨extractPatchCell s, List.mem_map_of_mem extractPatchCell hs,
        by simp [hnone]⟩
    rw [read_sensor, if_neg hcond]

/-- Witness for `sensor_log_reader` on a one-column log and on a log with a
stray column. -/
theorem sensor_log_reader_witness :
    ((∀ s ∈ ["patch1_cell2"], (extractPatchCell s).isSome = true) ∧
      read_sensor ⟨["patch1_cell2"], [(100, [some 5])]⟩
        = .ok (["patch1_cell2"].filterMap extractPatchCell,
            [((100 : ℚ), [some (5 : ℤ)])].map
              (fun r => (toDatetimeUnixSeconds r.1, r.2.map (·.getD 0))))) ∧
    ((∃ s ∈ ["patch1_cell2", "humidity"], extractPatchCell s = none) ∧
      read_sensor ⟨["patch1_cell2", "humidity"], []⟩
        = .error "cannot convert non-finite values (NA or inf) to integer") := by
  have h1 : ∀ s ∈ ["patch1_cell2"], (extractPatchCell s).isSome = true := by decide
  have h2 : ∃ s ∈ ["patch1_cell2", "humidity"], extractPatchCell s = none := by
    refine ⟨"humidity", by decide, by decide⟩
  exact ⟨⟨h1, sensor_log_reader.2.1 ⟨["patch1_cell2"], [(100, [some 5])]⟩ h1⟩,
    ⟨h2, sensor_log_reader.2.2 ⟨["patch1_cell2", "humidity"], []⟩ h2⟩⟩

/-- C9: the `CellLine` history buffer is a fixed-capacity ring: starting
from a freshly constructed `CellLine` of any positive capacity, after any
sequence of `add` calls the backing array keeps its initial length, the
write position stays within `0 ≤ pos < capacity` before and after every
`add`, and the plotted data lists the capacity most recent values (the
initial fill counting as the oldest) in oldest-to-newest order. -/
theorem cellline_ring_buffer (history : ℕ) (init target : ℚ) (xs : List ℚ)
    (h : 0 < history) :
    (xs.foldl CellLine.add (CellLine.init history init target)).values.length
      = history ∧
    (xs.foldl CellLine.add (CellLine.init history init target)).pos < history ∧
    (xs.foldl CellLine.add (CellLine.init history init target)).ydata
      = lastN history (List.replicate history init ++ xs) := by
  have hinv := cellline_fold_invariant history h xs
    (CellLine.init history init target) (List.replicate history init)
    (by simp [CellLine.init])
    (by simpa [CellLine.init] using h)
    rfl
    (by simp [CellLine.init, CellLine.rotated, lastN])
    (by simp)
    (by simp [CellLine.init, CellLine.rotated])
  exact ⟨hinv.1, hinv.2.1, hinv.2.2.2.2.trans hinv.2.2.2.1⟩

/-- Witness for `cellline_ring_buffer`: capacity 3, four adds. -/
theorem cellline_ring_buffer_witness :
    0 < 3 ∧
    ([10, 20, 30, 40].foldl CellLine.add (CellLine.init 3 0 100)).values.length = 3 ∧
    ([10, 20, 30, 40].foldl CellLine.add (CellLine.init 3 0 100)).pos < 3 ∧
    ([10, 20, 30, 40].foldl CellLine.add (CellLine.init 3 0 100)).ydata
      = lastN 3 (List.replicate 3 0 ++ [10, 20, 30, 40]) := by
  have h := cellline_ring_buffer 3 0 100 [10, 20, 30, 40] (by decide)
  exact ⟨by decide, h.1, h.2.1, h.2.2⟩

/-- Counterexample to C1: with every cell enabled, `zmax = 4000` and cell 0
smoothed to `-4000` (all others 0), `circle_update` computes magnitude `1`
(the clipped absolute value, normalized), while the claimed
`M = Σ max(0, avg)` is `0` — a negative cell value contributes its absolute
value, not zero weight. -/
theorem pressure_clipping_counterexample :
    circleMagnitudeRaw (fun c => if c = 0 then -4000 else 0) (fun _ => true) 4000 16 = 1 ∧
    (specPatchPressure (fun c => if c = 0 then -4000 else 0) (fun _ => true) 16).1 = 0 ∧
    (circleUpdateCore (fun c => if c = 0 then -4000 else 0) (fun _ => true) 4000
        (0, 0) 0 16).focusMagnitudeRaw
      ≠ some ((specPatchPressure (fun c => if c = 0 then -4000 else 0)
          (fun _ => true) 16).1) := by
  with_unfolding_all decide

/-- C1 as amended: for every patch with at least one enabled cell (and the
nonzero clipping bound `zmax` the normalization divides by), `circle_update`
weights each enabled cell by `min(|avg|, zmax)/zmax` (clipped absolute value
normalized by `circle_max`, so negative values contribute their absolute
value); the magnitude is the sum of those weights; the centroid is the
weight-normalized dot product with the cell positions, computed without a
zero-magnitude guard (`none` = NaN when the magnitude is zero); both are
then exponentially smoothed with `focus_alpha = 1/2` against
`last_pos`/`last_magnitude`. -/
theorem pressure_summary_amended (expavg : ℕ → ℚ) (active : ℕ → Bool)
    (zmax : ℚ) (lastPos : ℚ × ℚ) (lastMag : ℚ)
    (hact : activeIdx active ≠ []) (hz : zmax ≠ 0) :
    (circleUpdateCore expavg active zmax lastPos lastMag 16).focusMagnitudeRaw
      = some (((activeIdx active).map (clipWeight expavg zmax)).sum) ∧
    (circleUpdateCore expavg active zmax lastPos lastMag 16).focusMagnitude
      = some (focus_alpha * ((activeIdx active).map (clipWeight expavg zmax)).sum
        + (1 - focus_alpha) * lastMag) ∧
    (((activeIdx active).map (clipWeight expavg zmax)).sum = 0 →
      (circleUpdateCore expavg active zmax lastPos lastMag 16).field = none ∧
      (circleUpdateCore expavg active zmax lastPos lastMag 16).focusPos = none) ∧
    (((activeIdx active).map (clipWeight expavg zmax)).sum ≠ 0 →
      (circleUpdateCore expavg active zmax lastPos lastMag 16).focusPos = some
        (focus_alpha * ((activeIdx active).map (fun c =>
            clipWeight expavg zmax c
              / ((activeIdx active).map (clipWeight expavg zmax)).sum
              * (circlePos c).1)).sum
          + (1 - focus_alpha) * lastPos.1,
         focus_alpha * ((activeIdx active).map (fun c =>
            clipWeight expavg zmax c
              / ((activeIdx active).map (clipWeight expavg zmax)).sum
              * (circlePos c).2)).sum
          + (1 - focus_alpha) * lastPos.2)) := by
  have hM := circleMagnitudeRaw_eq expavg active zmax
  refine ⟨by rw [circleUpdateCore_raw_of _ _ _ _ _ _ hact hz, hM],
          by rw [circleUpdateCore_mag_of _ _ _ _ _ _ hact hz, hM],
          fun h0 => ?_, fun h0 => ?_⟩
  · simp only [circleUpdateCore]
    rw [if_neg hact, if_neg hz, if_pos (hM.trans h0)]
    exact ⟨rfl, rfl⟩
  · simp only [circleUpdateCore]
    rw [if_neg hact, if_neg hz, if_neg (fun h => h0 (hM.symm.trans h))]
    simp only [CircleFrame.mk.injEq, circleWeights_eq, hM, List.map_map,
      List.zip_map', Option.some.injEq]
    rfl

/-- Witness for `pressure_summary_amended` at the counterexample input. -/
theorem pressure_summary_amended_witness :
    activeIdx (fun _ => true) ≠ [] ∧ (4000 : ℚ) ≠ 0 ∧
    ((activeIdx (fun _ => true)).map
        (clipWeight (fun c => if c = 0 then -4000 else 0) 4000)).sum ≠ 0 ∧
    (circleUpdateCore (fun c => if c = 0 then -4000 else 0) (fun _ => true) 4000
        (0, 0) 0 16).focusPos = some
      (focus_alpha * ((activeIdx (fun _ => true)).map (fun c =>
          clipWeight (fun c => if c = 0 then -4000 else 0) 4000 c
            / ((activeIdx (fun _ => true)).map
                (clipWeight (fun c => if c = 0 then -4000 else 0) 4000)).sum
            * (circlePos c).1)).sum
        + (1 - focus_alpha) * (0 : ℚ),
       focus_alpha * ((activeIdx (fun _ => true)).map (fun c =>
          clipWeight (fun c => if c = 0 then -4000 else 0) 4000 c
            / ((activeIdx (fun _ => true)).map
                (clipWeight (fun c => if c = 0 then -4000 else 0) 4000)).sum
            * (circlePos c).2)).sum
        + (1 - focus_alpha) * (0 : ℚ)) := by
  have hact : activeIdx (fun _ => true) ≠ ([] : List ℕ) := by decide
  have hz : (4000 : ℚ) ≠ 0 := by norm_num
  have h0 : ((activeIdx (fun _ => true)).map
      (clipWeight (fun c => if c = 0 then -4000 else 0) 4000)).sum ≠ 0 := by
    with_unfolding_all decide
  exact ⟨hact, hz, h0, (pressure_summary_amended (fun c => if c = 0 then -4000 else 0)
    (fun _ => true) 4000 (0, 0) 0 hact hz).2.2.2 h0⟩

/-- C2 is what the spec intends but not what the code does: with every
enabled cell exactly at baseline (all smoothed values 0) the magnitude sum
is 0, yet `circle_update` has no `M > 0` guard — it divides the weights by
the zero magnitude (numpy `0/0`), so the field and the centroid come out
NaN (`none`) instead of the claimed `(0, 0, 0)`; the spec-faithful
computation returns `(0, 0, 0)` on the same input. -/
theorem pressure_zero_division_executed :
    circleMagnitudeRaw (fun _ => 0) (fun _ => true) 4000 16 = 0 ∧
    (circleUpdateCore (fun _ => 0) (fun _ => true) 4000 (0, 0) 0 16).field = none ∧
    (circleUpdateCore (fun _ => 0) (fun _ => true) 4000 (0, 0) 0 16).focusPos = none ∧
    specPatchPressure (fun _ => 0) (fun _ => true) 16 = (0, 0, 0) := by
  with_unfolding_all decide

/-- C6: a cell is enabled for aggregation iff its profile `c1` is nonzero
(every cell enabled when no profile is supplied); a disabled cell is
excluded from the magnitude and centroid sums — changing its value moves
neither — while its value is still read into `circle_value` and its circle
is still recolored from `abs(get_expavg)`. -/
theorem disabled_cells_excluded :
    (∀ (prof : ℕ → ℕ → ℚ) (patch cell : ℕ),
      circleEnabled (some prof) patch cell = true ↔ prof patch cell ≠ 0) ∧
    (∀ patch cell, circleEnabled none patch cell = true) ∧
    (∀ (e : ℕ → ℚ) (active : ℕ → Bool) (zmax : ℚ) (lp : ℚ × ℚ) (lm : ℚ)
       (c : ℕ) (x : ℚ), active c = false →
      (circleUpdateCore (Function.update e c x) active zmax lp lm 16).focusMagnitudeRaw
          = (circleUpdateCore e active zmax lp lm 16).focusMagnitudeRaw ∧
      (circleUpdateCore (Function.update e c x) active zmax lp lm 16).focusPos
          = (circleUpdateCore e active zmax lp lm 16).focusPos) ∧
    (∀ (e : ℕ → ℚ) (zmax : ℚ) (c : ℕ), c < 16 →
      (circleValues e zmax 16).getD c 0 = min |e c| zmax) ∧
    (∀ (e : ℕ → ℚ) (vmin vmax : ℚ) (c : ℕ), c < 16 →
      (circleColors e vmin vmax 16).getD c 0 = colorNorm vmin vmax |e c|) := by
  refine ⟨fun prof patch cell => by simp [circleEnabled],
          fun patch cell => rfl, ?_, fun e z c h => circleValues_getD e z h, ?_⟩
  · intro e active zmax lp lm c x hc
    have hw : circleWeights (Function.update e c x) active zmax 16
        = circleWeights e active zmax 16 := by
      rw [circleWeights_eq, circleWeights_eq]
      refine List.map_congr_left fun c' hc' => ?_
      have hne : c' ≠ c := fun h => by
        have := (mem_activeIdx hc').2
        rw [h, hc] at this
        cases this
      simp [clipWeight, Function.update_noteq hne]
    have hM : circleMagnitudeRaw (Function.update e c x) active zmax 16
        = circleMagnitudeRaw e active zmax 16 := by
      rw [circleMagnitudeRaw, circleMagnitudeRaw, hw]
    constructor
    · simp only [circleUpdateCore, hw, hM]
      split_ifs <;> rfl
    · simp only [circleUpdateCore, hw, hM]
      split_ifs <;> rfl
  · intro e vmin vmax c h
    simp [circleColors, List.getD_eq_getElem?_getD, List.getElem?_map,
      List.getElem?_range h]

/-- Witness for `disabled_cells_excluded`: disabling cell 0 and changing its
value from 0 to 7 leaves the magnitude sum untouched. -/
theorem disabled_cells_excluded_witness :
    ((fun c : ℕ => decide (c ≠ 0)) 0 = false) ∧
    (circleUpdateCore (Function.update (fun _ => 0) 0 7)
        (fun c => decide (c ≠ 0)) 4000 (0, 0) 0 16).focusMagnitudeRaw
      = (circleUpdateCore (fun _ => 0) (fun c => decide (c ≠ 0)) 4000
          (0, 0) 0 16).focusMagnitudeRaw := by
  have h : (fun c : ℕ => decide (c ≠ 0)) 0 = false := by decide
  exact ⟨h, ((disabled_cells_excluded.2.2.1 (fun _ => 0) (fun c => decide (c ≠ 0))
    4000 (0, 0) 0 0 7) h).1⟩

/-- Witness for `gain_editor_set_c1`: `"abc"` fails to parse and changes
nothing; `"1.5"` parses to `3/2` and is the single setter call made. -/
theorem gain_editor_set_c1_witness :
    (pyFloat "abc" = none ∧
      (ParamEditor.set_c1 sampleSkin 1 3 "abc").sensor = sampleSkin ∧
      (ParamEditor.set_c1 sampleSkin 1 3 "abc").calls = []) ∧
    (pyFloat "1.5" = some (3/2) ∧
      ((ParamEditor.set_c1 sampleSkin 1 3 "1.5").sensor).get_c1 1 3 = 3/2 ∧
      (ParamEditor.set_c1 sampleSkin 1 3 "1.5").calls = [(1, 3, 3/2)]) := by
  have habc : pyFloat "abc" = none := by with_unfolding_all decide
  have h15 : pyFloat "1.5" = some (3/2) := by with_unfolding_all decide
  have h1 := (gain_editor_set_c1 sampleSkin 1 3 "abc").1 habc
  have h2 := (gain_editor_set_c1 sampleSkin 1 3 "1.5").2.1 (3/2) h15
  exact ⟨⟨habc, h1.1, h1.2⟩, ⟨h15, h2.1, h2.2⟩⟩

end Skinvis
